import Mathlib

/-!
# Verification of the lampControl Device Control & Live-Effect Orchestration Core

A shallow embedding, in Lean 4, of the parts of the `codeneuss/lampControl`
repository that the verified properties talk about:

* the ELK-BLEDOM frame codec (`pkg/protocol`),
* the connection manager and the semantic setters of `DeviceService`
  (`internal/application/device_service.go`),
* the cooldown arbitration, effect orchestration and snapshot/restore logic of
  `TwitchService` (`internal/application/twitch_service.go`,
  `internal/domain`),
* the WebSocket hub command handling and broadcast loop
  (`internal/presentation/api/websocket/hub.go`).

Go maps are embedded as association lists, `time.Time`/`time.Duration` as
`Nat`, `uint8` as `Fin 256`, Go `int` as `Int`, and the opaque bluetooth link
adapter as an oracle of per-attempt outcomes.
-/

namespace LampControl

/-! ## Association-list model of Go maps -/

/-- Lookup in an association list, mirroring Go map indexing `m[k]`. -/
def alookup {α β : Type} [DecidableEq α] : List (α × β) → α → Option β
  | [], _ => none
  | (k, w) :: rest, a => if k = a then some w else alookup rest a

/-- Go map assignment `m[k] = v`: replace the binding if present, else add it. -/
def ainsert {α β : Type} [DecidableEq α] : List (α × β) → α → β → List (α × β)
  | [], a, v => [(a, v)]
  | (k, w) :: rest, a, v =>
      if k = a then (a, v) :: rest else (k, w) :: ainsert rest a v

/-- Go `if x, ok := m[k]; ok { mutate x }`: update the binding when present. -/
def aupdate {α β : Type} [DecidableEq α] : List (α × β) → α → (β → β) → List (α × β)
  | [], _, _ => []
  | (k, w) :: rest, a, f =>
      if k = a then (k, f w) :: rest else (k, w) :: aupdate rest a f

/-- Go `delete(m, k)`. -/
def aerase {α β : Type} [DecidableEq α] : List (α × β) → α → List (α × β)
  | [], _ => []
  | (k, w) :: rest, a => if k = a then rest else (k, w) :: aerase rest a

/-! ## Frame codec (`pkg/protocol`, ELK-BLEDOM protocol)

The Go type is `type Command [9]byte`; we embed it as a list of bytes and
prove that every constructor produces exactly 9 bytes. -/

abbrev Byte := Fin 256

/-- `type Command [9]byte` from `pkg/protocol`. -/
abbrev Command := List Byte

/-- `StartByte = 0x7E`. -/
def StartByte : Byte := 0x7E

/-- `EndByte = 0xEF`. -/
def EndByte : Byte := 0xEF

/-- `SeqByte = 0x00`. -/
def SeqByte : Byte := 0x00

/-- `CmdBrightness = 0x01`. -/
def CmdBrightness : Byte := 0x01

/-- `CmdPower = 0x04`. -/
def CmdPower : Byte := 0x04

/-- `CmdColor = 0x05`. -/
def CmdColor : Byte := 0x05

/-- `CmdEffect = 0x03`. -/
def CmdEffect : Byte := 0x03

/-- `ColorModeSingle = 0x01`. -/
def ColorModeSingle : Byte := 0x01

/-- `ColorModeWhite = 0x02`. -/
def ColorModeWhite : Byte := 0x02

/-- `ColorModeRGB = 0x03`. -/
def ColorModeRGB : Byte := 0x03

/-- `func NewPowerCommand(on bool) Command`. -/
def NewPowerCommand (isOn : Bool) : Command :=
  if isOn then
    [StartByte, SeqByte, CmdPower, 0xF0, 0x00, 0x01, 0xFF, 0x00, EndByte]
  else
    [StartByte, SeqByte, CmdPower, 0x00, 0x00, 0x00, 0xFF, 0x00, EndByte]

/-- `func NewRGBCommand(r, g, b uint8) Command`. -/
def NewRGBCommand (r g b : Byte) : Command :=
  [StartByte, SeqByte, CmdColor, ColorModeRGB, r, g, b, 0x00, EndByte]

/-- `func NewBrightnessCommand(level uint8) Command`. -/
def NewBrightnessCommand (level : Byte) : Command :=
  [StartByte, SeqByte, CmdBrightness, level, 0xFF, 0xFF, 0xFF, 0x00, EndByte]

/-- `func NewWhiteBalanceCommand(warm, cold uint8) Command`. -/
def NewWhiteBalanceCommand (warm cold : Byte) : Command :=
  [StartByte, SeqByte, CmdColor, ColorModeWhite, warm, cold, 0xFF, 0x00, EndByte]

/-- `func NewSingleColorCommand(index uint8) Command`. -/
def NewSingleColorCommand (index : Byte) : Command :=
  [StartByte, SeqByte, CmdColor, ColorModeSingle, index, 0xFF, 0xFF, 0x00, EndByte]

/-- `func NewEffectCommand(effect, speed uint8) Command`. -/
def NewEffectCommand (effect speed : Byte) : Command :=
  [StartByte, SeqByte, CmdEffect, effect, speed, 0xFF, 0xFF, 0x00, EndByte]

/-! ## Domain model (`internal/domain`) -/

/-- Device addresses (Go: bluetooth MAC address strings). -/
abbrev Addr := String

/-- `type RGB struct { R, G, B uint8 }` from `internal/domain`. -/
structure RGB where
  r : Byte
  g : Byte
  b : Byte
deriving DecidableEq, Repr

/-- `func NewRGB(r, g, b uint8) (RGB, error)`: always succeeds because the
inputs are already 8-bit values; the Go function returns a nil error. -/
def NewRGB (r g b : Byte) : RGB × Option Unit :=
  (⟨r, g, b⟩, none)

/-- `type WhiteBalance struct { Warm, Cold uint8 }`. -/
structure WhiteBalance where
  warm : Byte
  cold : Byte
deriving DecidableEq, Repr

/-- `type DeviceState struct` from `internal/domain`: client-side state of a
lamp.  `Effect` is a Go `*int`, embedded as `Option Int`; `EffectSpeed` is a
`*uint8`. -/
structure DeviceState where
  powerOn : Bool
  brightness : Byte
  rgb : Option RGB
  whiteBalance : Option WhiteBalance
  effect : Option Int
  effectSpeed : Option Byte
  lastUpdated : Nat
deriving DecidableEq, Repr

/-- `func NewDeviceState() DeviceState`: power off, full brightness, white RGB. -/
def NewDeviceState (now : Nat) : DeviceState :=
  { powerOn := false
    brightness := 255
    rgb := some ⟨255, 255, 255⟩
    whiteBalance := none
    effect := none
    effectSpeed := none
    lastUpdated := now }

/-- `type Device struct` from `internal/domain` (the BLE characteristic
handles live in the opaque link adapter and are not part of this core). -/
structure Device where
  address : Addr
  name : String
  rssi : Int
  connected : Bool
  state : DeviceState
  lastSeen : Nat
  lastUpdated : Nat
deriving DecidableEq, Repr

/-- `func NewDevice(address, name string, rssi int16) *Device`. -/
def NewDevice (address name : String) (rssi : Int) (now : Nat) : Device :=
  { address := address
    name := name
    rssi := rssi
    connected := false
    state := NewDeviceState now
    lastSeen := now
    lastUpdated := now }

/-- `func (d *Device) UpdateState(state DeviceState)`. -/
def Device.UpdateState (d : Device) (state : DeviceState) (now : Nat) : Device :=
  { d with state := { state with lastUpdated := now }, lastUpdated := now }

/-- `func (d *Device) MarkConnected()`. -/
def Device.MarkConnected (d : Device) (now : Nat) : Device :=
  { d with connected := true, lastSeen := now }

/-- `func (d *Device) MarkDisconnected()`. -/
def Device.MarkDisconnected (d : Device) : Device :=
  { d with connected := false }

/-- `type StateSnapshot struct` from `internal/domain/state_snapshot.go`. -/
structure StateSnapshot where
  deviceAddress : Addr
  state : DeviceState
  capturedAt : Nat
  reason : String
deriving DecidableEq, Repr

/-- `func NewStateSnapshot(deviceAddr string, state DeviceState, reason string)`. -/
def NewStateSnapshot (deviceAddr : Addr) (state : DeviceState) (reason : String)
    (now : Nat) : StateSnapshot :=
  { deviceAddress := deviceAddr, state := state, capturedAt := now, reason := reason }

/-- Go's `uint8(x)` conversion applied to an `int`: truncation modulo 256. -/
def uint8OfInt (x : Int) : Byte :=
  ⟨(x % 256).toNat, by
    have h1 : (0 : Int) ≤ x % 256 := Int.emod_nonneg x (by norm_num)
    have h2 : x % 256 < 256 := Int.emod_lt_of_pos x (by norm_num)
    omega⟩

/-! ## Connection manager and device registry (`DeviceService`)

The opaque bluetooth link adapter is embedded as oracles: `connect` takes the
result the adapter would return, and `writeCommand` takes a function from
attempt index to the outcome of that attempt. Underlying adapter failures are
opaque error codes. -/

/-- An opaque error produced by the bluetooth link adapter. -/
abbrev BleErr := Nat

/-- A connection handle (`*bluetooth.Connection`). -/
abbrev Conn := Nat

/-- The error returned by `writeCommand` after exhausting its retries:
`fmt.Errorf("failed after %d attempts: %w", s.retryAttempts, lastErr)`. -/
inductive CmdError where
  | failedAfter (attempts : Nat) (last : Option BleErr)
deriving DecidableEq, Repr

/-- In-memory state of `DeviceService`: the connection map and device catalog. -/
structure DeviceService where
  connections : List (Addr × Conn)
  devices : List (Addr × Device)
deriving DecidableEq, Repr

/-- `func (s *DeviceService) connect(ctx, address)`: return the cached handle
if one exists, otherwise invoke the link adapter (whose result is the
`adapterResult` oracle), record the handle and mark the device connected.
Returns the result, the new service state, and whether the adapter was
invoked. -/
def DeviceService.connect (s : DeviceService) (address : Addr)
    (adapterResult : Except BleErr Conn) (now : Nat) :
    Except BleErr Conn × DeviceService × Bool :=
  match alookup s.connections address with
  | some conn => (.ok conn, s, false)
  | none =>
    match adapterResult with
    | .error e => (.error e, s, true)
    | .ok conn =>
        (.ok conn,
         { connections := ainsert s.connections address conn
           devices := aupdate s.devices address (fun dev => dev.MarkConnected now) },
         true)

/-- `func (s *DeviceService) Disconnect(address string) error`: a no-op when
no connection is cached; otherwise invoke the adapter, and on success drop the
handle and mark the device disconnected.  Returns the result and the new
service state. -/
def DeviceService.Disconnect (s : DeviceService) (address : Addr)
    (adapterResult : Except BleErr Unit) : Except BleErr Unit × DeviceService :=
  match alookup s.connections address with
  | none => (.ok (), s)
  | some _ =>
    match adapterResult with
    | .error e => (.error e, s)
    | .ok _ =>
        (.ok (),
         { connections := aerase s.connections address
           devices := aupdate s.devices address Device.MarkDisconnected })

/-- What one iteration of the `writeCommand` retry loop observes from the
link: obtaining the handle fails, the raw write fails, or the write succeeds. -/
inductive AttemptOutcome where
  | connectFail (e : BleErr)
  | writeFail (e : BleErr)
  | writeOk
deriving DecidableEq, Repr

/-- The externally visible steps taken by one `writeCommand` call, in order:
`connect` obtains a handle, `write` issues the raw write, `disconnect` is the
proactive `s.Disconnect(address)` after a failed write, `sleep` is the fixed
`time.Sleep(500 * time.Millisecond)` backoff. -/
inductive WcEvent where
  | connect
  | write
  | disconnect
  | sleep
deriving DecidableEq, Repr

/-- `s.retryAttempts`, set to 3 in `NewDeviceService`. -/
def retryAttempts : Nat := 3

instance {ε α : Type} [DecidableEq ε] [DecidableEq α] : DecidableEq (Except ε α) :=
  fun x y =>
    match x, y with
    | .ok a, .ok b =>
        if h : a = b then .isTrue (by rw [h])
        else .isFalse (fun hh => h (Except.ok.inj hh))
    | .error a, .error b =>
        if h : a = b then .isTrue (by rw [h])
        else .isFalse (fun hh => h (Except.error.inj hh))
    | .ok _, .error _ => .isFalse (fun hh => Except.noConfusion hh)
    | .error _, .ok _ => .isFalse (fun hh => Except.noConfusion hh)

/-- Result of a `writeCommand` call: the returned error (if any), the ordered
trace of link-visible steps, and the number of loop iterations performed. -/
structure WriteExec where
  result : Except CmdError Unit
  events : List WcEvent
  attempts : Nat
deriving DecidableEq, Repr

/-- The retry loop of `func (s *DeviceService) writeCommand`:
`for attempt := 0; attempt < s.retryAttempts; attempt++`.  On a connect
failure: remember the error, back off, continue.  On a successful write:
return nil immediately.  On a failed write: remember the error, proactively
disconnect, back off, continue.  After the loop: return the aggregated
error wrapping the last underlying failure. -/
def writeCommandLoop (oracle : Nat → AttemptOutcome) :
    Nat → Nat → Option BleErr → WriteExec
  | 0, _, lastErr =>
      { result := .error (.failedAfter retryAttempts lastErr), events := [], attempts := 0 }
  | remaining + 1, attempt, _ =>
    match oracle attempt with
    | .connectFail e =>
        let rest := writeCommandLoop oracle remaining (attempt + 1) (some e)
        { result := rest.result
          events := .connect :: .sleep :: rest.events
          attempts := rest.attempts + 1 }
    | .writeOk =>
        { result := .ok (), events := [.connect, .write], attempts := 1 }
    | .writeFail e =>
        let rest := writeCommandLoop oracle remaining (attempt + 1) (some e)
        { result := rest.result
          events := .connect :: .write :: .disconnect :: .sleep :: rest.events
          attempts := rest.attempts + 1 }

/-- `func (s *DeviceService) writeCommand(ctx, address, cmd)`. -/
def writeCommand (oracle : Nat → AttemptOutcome) : WriteExec :=
  writeCommandLoop oracle retryAttempts 0 none

/-! ### Semantic setters

Each setter encodes a frame, hands it to `writeCommand`, and only on success
mutates the stored `DeviceState` (when the device is in the catalog).  Each
returns the propagated result, the new service state, and the frames handed to
`writeCommand`. -/

/-- `func (s *DeviceService) SetPower(ctx, address, on bool) error`. -/
def DeviceService.SetPower (s : DeviceService) (oracle : Nat → AttemptOutcome)
    (address : Addr) (isOn : Bool) (now : Nat) :
    Except CmdError Unit × DeviceService × List Command :=
  let cmd := NewPowerCommand isOn
  match (writeCommand oracle).result with
  | .error e => (.error e, s, [cmd])
  | .ok _ =>
      (.ok (),
       { s with devices := aupdate s.devices address (fun dev =>
           dev.UpdateState { dev.state with powerOn := isOn, lastUpdated := now } now) },
       [cmd])

/-- `func (s *DeviceService) SetColor(ctx, address, r, g, b uint8) error`:
on success stores the RGB look and clears white balance and effect. -/
def DeviceService.SetColor (s : DeviceService) (oracle : Nat → AttemptOutcome)
    (address : Addr) (r g b : Byte) (now : Nat) :
    Except CmdError Unit × DeviceService × List Command :=
  let cmd := NewRGBCommand r g b
  match (writeCommand oracle).result with
  | .error e => (.error e, s, [cmd])
  | .ok _ =>
      (.ok (),
       { s with devices := aupdate s.devices address (fun dev =>
           dev.UpdateState { dev.state with
             rgb := some (NewRGB r g b).1
             whiteBalance := none
             effect := none
             lastUpdated := now } now) },
       [cmd])

/-- `func (s *DeviceService) SetBrightness(ctx, address, level uint8) error`. -/
def DeviceService.SetBrightness (s : DeviceService) (oracle : Nat → AttemptOutcome)
    (address : Addr) (level : Byte) (now : Nat) :
    Except CmdError Unit × DeviceService × List Command :=
  let cmd := NewBrightnessCommand level
  match (writeCommand oracle).result with
  | .error e => (.error e, s, [cmd])
  | .ok _ =>
      (.ok (),
       { s with devices := aupdate s.devices address (fun dev =>
           dev.UpdateState { dev.state with brightness := level, lastUpdated := now } now) },
       [cmd])

/-- `func (s *DeviceService) SetWhiteBalance(ctx, address, warm, cold uint8) error`:
on success stores the white-balance look and clears RGB and effect. -/
def DeviceService.SetWhiteBalance (s : DeviceService) (oracle : Nat → AttemptOutcome)
    (address : Addr) (warm cold : Byte) (now : Nat) :
    Except CmdError Unit × DeviceService × List Command :=
  let cmd := NewWhiteBalanceCommand warm cold
  match (writeCommand oracle).result with
  | .error e => (.error e, s, [cmd])
  | .ok _ =>
      (.ok (),
       { s with devices := aupdate s.devices address (fun dev =>
           dev.UpdateState { dev.state with
             whiteBalance := some ⟨warm, cold⟩
             rgb := none
             effect := none
             lastUpdated := now } now) },
       [cmd])

/-- `func (s *DeviceService) SetEffect(ctx, address, effect, speed uint8) error`:
on success stores `Effect` (as a Go `int`) and `EffectSpeed`.  The source does
not assign `state.RGB` or `state.WhiteBalance` here. -/
def DeviceService.SetEffect (s : DeviceService) (oracle : Nat → AttemptOutcome)
    (address : Addr) (effect speed : Byte) (now : Nat) :
    Except CmdError Unit × DeviceService × List Command :=
  let cmd := NewEffectCommand effect speed
  match (writeCommand oracle).result with
  | .error e => (.error e, s, [cmd])
  | .ok _ =>
      (.ok (),
       { s with devices := aupdate s.devices address (fun dev =>
           dev.UpdateState { dev.state with
             effect := some (effect : Nat)
             effectSpeed := some speed
             lastUpdated := now } now) },
       [cmd])

/-! ## Cooldown state (`internal/domain`, `CooldownState`)

Time is embedded as `Nat` ticks; `time.Since(t)` at instant `now` is the
truncated difference `now - t`, and the zero `time.Time` is tick `0` (all
instants at which the program runs are later than the zero time). -/

/-- `type CooldownState struct { LastGlobalCommand time.Time;
UserLastCommand map[string]time.Time }`. -/
structure CooldownState where
  lastGlobalCommand : Nat
  userLastCommand : List (String × Nat)
deriving DecidableEq, Repr

/-- `func NewCooldownState() *CooldownState`. -/
def NewCooldownState : CooldownState :=
  { lastGlobalCommand := 0, userLastCommand := [] }

/-- `func (c *CooldownState) CheckGlobalCooldown(cooldown) (bool, time.Duration)`:
pass when the configured interval is zero or the elapsed time since the last
accepted command reaches it; otherwise reject with the remaining time. -/
def CooldownState.CheckGlobalCooldown (c : CooldownState) (cooldown now : Nat) :
    Bool × Nat :=
  if cooldown = 0 then (true, 0)
  else
    let elapsed := now - c.lastGlobalCommand
    if elapsed < cooldown then (false, cooldown - elapsed) else (true, 0)

/-- `func (c *CooldownState) CheckUserCooldown(username, cooldown)`: pass when
the interval is zero, the user has no recorded command, or the elapsed time
since the user's last accepted command reaches the interval. -/
def CooldownState.CheckUserCooldown (c : CooldownState) (username : String)
    (cooldown now : Nat) : Bool × Nat :=
  if cooldown = 0 then (true, 0)
  else
    match alookup c.userLastCommand username with
    | none => (true, 0)
    | some lastCmd =>
        let elapsed := now - lastCmd
        if elapsed < cooldown then (false, cooldown - elapsed) else (true, 0)

/-- `func (c *CooldownState) RecordCommand(username string)`: stamp both the
global and the user's last-accepted-command times with `now`. -/
def CooldownState.RecordCommand (c : CooldownState) (username : String)
    (now : Nat) : CooldownState :=
  { lastGlobalCommand := now
    userLastCommand := ainsert c.userLastCommand username now }

/-! ## Twitch domain (`internal/domain`, command parsing tables) -/

/-- `type TwitchCommand struct` (parsed chat command). -/
structure TwitchCommand where
  username : String
  displayName : String
  command : String
  isVIP : Bool
  isSub : Bool
  isMod : Bool
  timestamp : Nat
deriving DecidableEq, Repr

/-- The fields of `type TwitchConfig struct` consumed by the orchestrator. -/
structure TwitchConfig where
  globalCooldown : Nat
  userCooldown : Nat
  effectDuration : Nat
  vipBypassCooldown : Bool
  subBypassCooldown : Bool
  modBypassCooldown : Bool
deriving DecidableEq, Repr

/-- `var ColorMap = map[string]RGB{...}` as a lookup function. -/
def ColorMap (name : String) : Option RGB :=
  if name = "red" then some ⟨255, 0, 0⟩
  else if name = "green" then some ⟨0, 255, 0⟩
  else if name = "blue" then some ⟨0, 0, 255⟩
  else if name = "yellow" then some ⟨255, 255, 0⟩
  else if name = "cyan" then some ⟨0, 255, 255⟩
  else if name = "magenta" then some ⟨255, 0, 255⟩
  else if name = "purple" then some ⟨128, 0, 128⟩
  else if name = "orange" then some ⟨255, 165, 0⟩
  else if name = "pink" then some ⟨255, 192, 203⟩
  else if name = "white" then some ⟨255, 255, 255⟩
  else none

/-- `var EffectMap = map[string]uint8{...}` as a lookup function. -/
def EffectMap (name : String) : Option Byte :=
  if name = "rainbow" then some 0x25
  else if name = "strobe" then some 0x26
  else if name = "fade" then some 0x27
  else if name = "pulse" then some 0x28
  else none

/-- `func IsColor(command string) bool` (commands reach the service already
lower-cased by `ParseTwitchCommand`). -/
def IsColor (command : String) : Bool := (ColorMap command).isSome

/-- `func IsEffect(command string) bool`. -/
def IsEffect (command : String) : Bool := (EffectMap command).isSome

/-! ## Effect orchestrator (`TwitchService`)

`time.AfterFunc` handles are embedded as fresh `Nat` ids drawn from a counter;
`Timer.Stop()` records the id among the stopped timers.  The single selected
device is supplied by the externally configured `getSelectedDevice` callback,
embedded as an `Option Addr` argument. -/

/-- `type ActiveEffect struct` from `twitch_service.go`: the currently active
viewer effect, with the handle of its pending revert timer. -/
structure ActiveEffect where
  username : String
  command : String
  startedAt : Nat
  timer : Nat
deriving DecidableEq, Repr

/-- The mutable state of `TwitchService` together with the services it drives:
the device service, the `StateSnapshotService` map, the active-effect marker,
the `CooldownManager` state, and the bookkeeping for timer handles. -/
structure TwitchState where
  svc : DeviceService
  snapshots : List (Addr × StateSnapshot)
  activeEffect : Option ActiveEffect
  cooldown : CooldownState
  nextTimer : Nat
  stoppedTimers : List Nat
deriving DecidableEq, Repr

/-- The errors `executeCommand` can return. -/
inductive ExecError where
  | noDeviceSelected
  | deviceNotFound
  | unknownCommand (c : String)
  | writeFailed (e : CmdError)
deriving DecidableEq, Repr

/-- `func (s *TwitchService) executeCommand(cmd, config) error`: stop any
pending revert timer, snapshot the current device state only when no effect is
active, apply the requested look (a color or a built-in effect at speed 128),
and on success schedule a fresh revert timer and install a new `ActiveEffect`
marker.  Returns the result, the new state, and the frames handed to
`writeCommand`. -/
def TwitchState.executeCommand (st : TwitchState) (selected : Option Addr)
    (cmd : TwitchCommand) (oracle : Nat → AttemptOutcome) (now : Nat) :
    Except ExecError Unit × TwitchState × List Command :=
  match selected with
  | none => (.error .noDeviceSelected, st, [])
  | some deviceAddr =>
    -- Cancel existing effect timer if any
    let st1 : TwitchState :=
      match st.activeEffect with
      | some ae => { st with stoppedTimers := ae.timer :: st.stoppedTimers }
      | none => st
    -- Save current state (only if no active effect)
    let shouldSnapshot := st.activeEffect.isNone
    let snapshotStep : Except ExecError TwitchState :=
      if shouldSnapshot then
        match alookup st1.svc.devices deviceAddr with
        | none => .error .deviceNotFound
        | some device =>
            let snap := NewStateSnapshot deviceAddr device.state "twitch_viewer_command" now
            .ok { st1 with snapshots := ainsert st1.snapshots deviceAddr snap }
      else .ok st1
    match snapshotStep with
    | .error e => (.error e, st1, [])
    | .ok st2 =>
      -- Execute the command
      let applied : Except ExecError (DeviceService × List Command) :=
        if IsColor cmd.command then
          match ColorMap cmd.command with
          | some rgb =>
              match st2.svc.SetColor oracle deviceAddr rgb.r rgb.g rgb.b now with
              | (.error e, _, _) => .error (.writeFailed e)
              | (.ok _, svc, frames) => .ok (svc, frames)
          | none => .error (.unknownCommand cmd.command)
        else if IsEffect cmd.command then
          match EffectMap cmd.command with
          | some effect =>
              match st2.svc.SetEffect oracle deviceAddr effect 128 now with
              | (.error e, _, _) => .error (.writeFailed e)
              | (.ok _, svc, frames) => .ok (svc, frames)
          | none => .error (.unknownCommand cmd.command)
        else .error (.unknownCommand cmd.command)
      match applied with
      | .error e => (.error e, st2, [])
      | .ok (svc, frames) =>
        -- Set timer to restore state and install the ActiveEffect marker
        (.ok (),
         { st2 with
             svc := svc
             activeEffect := some
               { username := cmd.username
                 command := cmd.command
                 startedAt := now
                 timer := st2.nextTimer }
             nextTimer := st2.nextTimer + 1 },
         frames)

/-- `func (s *TwitchService) restoreStreamerState(deviceAddr string)`: when a
snapshot exists, re-send whichever look field it holds (RGB first, then white
balance, then effect with its speed or 128), ignoring write errors, and clear
the active-effect marker; when none exists, do nothing.  Returns the new state
and the frames handed to `writeCommand`. -/
def TwitchState.restoreStreamerState (st : TwitchState) (deviceAddr : Addr)
    (oracle : Nat → AttemptOutcome) (now : Nat) : TwitchState × List Command :=
  match alookup st.snapshots deviceAddr with
  | none => (st, [])
  | some snapshot =>
    let state := snapshot.state
    let step : DeviceService × List Command :=
      match state.rgb with
      | some rgb =>
          let r := st.svc.SetColor oracle deviceAddr rgb.r rgb.g rgb.b now
          (r.2.1, r.2.2)
      | none =>
        match state.whiteBalance with
        | some wb =>
            let r := st.svc.SetWhiteBalance oracle deviceAddr wb.warm wb.cold now
            (r.2.1, r.2.2)
        | none =>
          match state.effect with
          | some e =>
              let speed : Byte :=
                match state.effectSpeed with
                | some sp => sp
                | none => 128
              let r := st.svc.SetEffect oracle deviceAddr (uint8OfInt e) speed now
              (r.2.1, r.2.2)
          | none => (st.svc, [])
    ({ st with svc := step.1, activeEffect := none }, step.2)

/-- The four ways `handleCommand` can end: a cooldown rejection (with the
remaining wait time the chat reply reports), a failed execution, or success. -/
inductive HandleOutcome where
  | rejectedGlobal (remaining : Nat)
  | rejectedPersonal (remaining : Nat)
  | commandFailed (e : ExecError)
  | success
deriving DecidableEq, Repr

/-- `func (s *TwitchService) handleCommand(cmd *domain.TwitchCommand)`:
bypass privileges skip all cooldowns; otherwise the global cooldown is checked
before the per-user cooldown, and a rejection replies with the remaining time
and touches nothing.  Both cooldown timestamps are recorded only after the
command executed successfully.  Returns the outcome, the new state, and the
frames handed to `writeCommand`. -/
def TwitchState.handleCommand (st : TwitchState) (selected : Option Addr)
    (cmd : TwitchCommand) (config : TwitchConfig) (oracle : Nat → AttemptOutcome)
    (now : Nat) : HandleOutcome × TwitchState × List Command :=
  let bypassCooldown := (cmd.isVIP && config.vipBypassCooldown) ||
      (cmd.isSub && config.subBypassCooldown) ||
      (cmd.isMod && config.modBypassCooldown)
  let execPhase : HandleOutcome × TwitchState × List Command :=
    match st.executeCommand selected cmd oracle now with
    | (.error e, st2, frames) => (.commandFailed e, st2, frames)
    | (.ok _, st2, frames) =>
        (.success,
         { st2 with cooldown := st2.cooldown.RecordCommand cmd.username now },
         frames)
  if bypassCooldown then execPhase
  else
    let globalCheck := st.cooldown.CheckGlobalCooldown config.globalCooldown now
    if globalCheck.1 = false then (.rejectedGlobal globalCheck.2, st, [])
    else
      let userCheck := st.cooldown.CheckUserCooldown cmd.username config.userCooldown now
      if userCheck.1 = false then (.rejectedPersonal userCheck.2, st, [])
      else execPhase

/-! ## Realtime hub (`internal/presentation/api/websocket/hub.go`)

Broadcast payloads are opaque.  A client's buffered `send` channel is embedded
as its queue of pending messages together with the channel's capacity; the
non-blocking `select { case client.send <- message: default: ... }` succeeds
exactly when the queue is below capacity. -/

/-- An opaque broadcast payload (`[]byte` in Go). -/
abbrev Msg := Nat

/-- A registered WebSocket client: its identity, the contents of its buffered
`send` channel, and that channel's capacity. -/
structure WsClient where
  id : Nat
  sendQueue : List Msg
  capacity : Nat
deriving DecidableEq, Repr

/-- The `case message := <-h.broadcast` arm of `Hub.Run`: try a non-blocking
send to every registered client; a client whose buffer is full is closed and
deleted from the client set.  Returns the clients that remain registered (with
the message enqueued) and the clients that were shed (their channels closed). -/
def broadcastStep (msg : Msg) : List WsClient → List WsClient × List WsClient
  | [] => ([], [])
  | c :: rest =>
      let step := broadcastStep msg rest
      if c.sendQueue.length < c.capacity then
        ({ c with sendQueue := c.sendQueue ++ [msg] } :: step.1, step.2)
      else
        (step.1, c :: step.2)

/-- The `Action` tag of an inbound `dto.CommandMessage`. -/
inductive HubAction where
  | power
  | color
  | brightness
  | whiteBalance
  | effect
deriving DecidableEq, Repr

/-- A per-action payload that unmarshalled successfully. -/
inductive ParsedPayload where
  | power (isOn : Bool)
  | color (r g b : Byte)
  | brightness (level : Byte)
  | whiteBalance (warm cold : Byte)
  | effect (e speed : Byte)
deriving DecidableEq, Repr

/-- An inbound client message as the two `json.Unmarshal` stages of
`Hub.handleCommand` classify it: the envelope fails to parse, the action tag
is unrecognized, the action is recognized but its payload fails to parse, or
everything parses. -/
inductive InboundMessage where
  | malformed
  | unknownAction
  | badPayload (action : HubAction)
  | valid (payload : ParsedPayload)
deriving DecidableEq, Repr

/-- The `code` field of the structured error replies `Hub.handleCommand`
sends via `client.SendJSON(dto.NewErrorMessage(...))`. -/
inductive ErrorCode where
  | invalidFormat
  | deviceNotSelected
  | invalidPayload
  | unknownAction
  | commandFailed
deriving DecidableEq, Repr

/-- Dispatch of the recognized actions of `Hub.handleCommand` to the matching
`DeviceService` setter. -/
def dispatchSetter (svc : DeviceService) (oracle : Nat → AttemptOutcome)
    (deviceAddr : Addr) (p : ParsedPayload) (now : Nat) :
    Except CmdError Unit × DeviceService × List Command :=
  match p with
  | .power isOn => svc.SetPower oracle deviceAddr isOn now
  | .color r g b => svc.SetColor oracle deviceAddr r g b now
  | .brightness level => svc.SetBrightness oracle deviceAddr level now
  | .whiteBalance warm cold => svc.SetWhiteBalance oracle deviceAddr warm cold now
  | .effect e speed => svc.SetEffect oracle deviceAddr e speed now

/-- `func (h *Hub) BroadcastDeviceState()`: resolves the selected address and
its device and, when both succeed, pushes a `state_update` onto the broadcast
channel; returns whether a broadcast was emitted. -/
def BroadcastDeviceState (svc : DeviceService) (selected : Option Addr) : Bool :=
  match selected with
  | none => false
  | some deviceAddr => (alookup svc.devices deviceAddr).isSome

/-- What one `Hub.handleCommand` call did: the error replies sent to the
originating client only, whether a state broadcast went out, whether a setter
was invoked and whether it succeeded, and the resulting device service. -/
structure HubCommandResult where
  errorReplies : List ErrorCode
  broadcastSent : Bool
  setterCalled : Bool
  setterSucceeded : Bool
  svc : DeviceService
deriving DecidableEq, Repr

/-- `func (h *Hub) handleCommand(client *Client, message []byte)`: a malformed
envelope, a missing device selection, an unrecognized action, or a malformed
payload each produce one structured error reply to the originator and touch
nothing; a recognized command invokes the matching setter, replies with
`COMMAND_FAILED` on error, and calls `BroadcastDeviceState` only on success. -/
def Hub.handleCommand (svc : DeviceService) (selected : Option Addr)
    (msg : InboundMessage) (oracle : Nat → AttemptOutcome) (now : Nat) :
    HubCommandResult :=
  match msg with
  | .malformed =>
      { errorReplies := [.invalidFormat], broadcastSent := false
        setterCalled := false, setterSucceeded := false, svc := svc }
  | .unknownAction =>
      match selected with
      | none =>
          { errorReplies := [.deviceNotSelected], broadcastSent := false
            setterCalled := false, setterSucceeded := false, svc := svc }
      | some _ =>
          { errorReplies := [.unknownAction], broadcastSent := false
            setterCalled := false, setterSucceeded := false, svc := svc }
  | .badPayload _ =>
      match selected with
      | none =>
          { errorReplies := [.deviceNotSelected], broadcastSent := false
            setterCalled := false, setterSucceeded := false, svc := svc }
      | some _ =>
          { errorReplies := [.invalidPayload], broadcastSent := false
            setterCalled := false, setterSucceeded := false, svc := svc }
  | .valid payload =>
      match selected with
      | none =>
          { errorReplies := [.deviceNotSelected], broadcastSent := false
            setterCalled := false, setterSucceeded := false, svc := svc }
      | some deviceAddr =>
          match dispatchSetter svc oracle deviceAddr payload now with
          | (.error _, svc2, _) =>
              { errorReplies := [.commandFailed], broadcastSent := false
                setterCalled := true, setterSucceeded := false, svc := svc2 }
          | (.ok _, svc2, _) =>
              { errorReplies := [], broadcastSent := BroadcastDeviceState svc2 selected
                setterCalled := true, setterSucceeded := true, svc := svc2 }

/-! ## Helper lemmas about the association-list map model -/

theorem alookup_ainsert_self {α β : Type} [DecidableEq α] (l : List (α × β))
    (a : α) (v : β) : alookup (ainsert l a v) a = some v := by
  induction l with
  | nil => simp [ainsert, alookup]
  | cons hd tl ih =>
      obtain ⟨k, w⟩ := hd
      by_cases hk : k = a
      · simp [ainsert, alookup, hk]
      · simp [ainsert, alookup, hk, ih]

theorem alookup_aupdate_self {α β : Type} [DecidableEq α] (l : List (α × β))
    (a : α) (f : β → β) :
    alookup (aupdate l a f) a = (alookup l a).map f := by
  induction l with
  | nil => simp [aupdate, alookup]
  | cons hd tl ih =>
      obtain ⟨k, w⟩ := hd
      by_cases hk : k = a
      · simp [aupdate, alookup, hk]
      · simp [aupdate, alookup, hk, ih]

/-! ## Example fixtures used to instantiate theorems with hypotheses -/

/-- An example device as `Scan` would create it. -/
def exDevice : Device := NewDevice "AA:BB" "ELK-BLEDOM" (-40) 0

/-- An example service with one cached connection and one known device. -/
def exSvc : DeviceService :=
  { connections := [("AA:BB", 7)], devices := [("AA:BB", exDevice)] }

/-- A link adapter whose writes always succeed. -/
def oracleOk : Nat → AttemptOutcome := fun _ => .writeOk

/-- A link adapter whose writes always fail with error code 9. -/
def oracleFail : Nat → AttemptOutcome := fun _ => .writeFail 9

/-- A link adapter that fails the first two write attempts and then succeeds. -/
def oracleThird : Nat → AttemptOutcome := fun n => if n < 2 then .writeFail n else .writeOk

/-! ## Claim theorems -/

/-- C5: every codec constructor is a pure total function returning a 9-byte
frame whose byte 0 is `0x7E`, byte 1 is `0x00` and byte 8 is `0xEF`, for all
8-bit inputs; and the four specific encodings of the spec hold exactly. -/
theorem frame_codec_correct :
    (∀ isOn : Bool, (NewPowerCommand isOn).length = 9 ∧
      (NewPowerCommand isOn)[0]? = some 0x7E ∧
      (NewPowerCommand isOn)[1]? = some 0x00 ∧
      (NewPowerCommand isOn)[8]? = some 0xEF) ∧
    (∀ r g b : Byte, (NewRGBCommand r g b).length = 9 ∧
      (NewRGBCommand r g b)[0]? = some 0x7E ∧
      (NewRGBCommand r g b)[1]? = some 0x00 ∧
      (NewRGBCommand r g b)[8]? = some 0xEF) ∧
    (∀ level : Byte, (NewBrightnessCommand level).length = 9 ∧
      (NewBrightnessCommand level)[0]? = some 0x7E ∧
      (NewBrightnessCommand level)[1]? = some 0x00 ∧
      (NewBrightnessCommand level)[8]? = some 0xEF) ∧
    (∀ warm cold : Byte, (NewWhiteBalanceCommand warm cold).length = 9 ∧
      (NewWhiteBalanceCommand warm cold)[0]? = some 0x7E ∧
      (NewWhiteBalanceCommand warm cold)[1]? = some 0x00 ∧
      (NewWhiteBalanceCommand warm cold)[8]? = some 0xEF) ∧
    (∀ index : Byte, (NewSingleColorCommand index).length = 9 ∧
      (NewSingleColorCommand index)[0]? = some 0x7E ∧
      (NewSingleColorCommand index)[1]? = some 0x00 ∧
      (NewSingleColorCommand index)[8]? = some 0xEF) ∧
    (∀ e speed : Byte, (NewEffectCommand e speed).length = 9 ∧
      (NewEffectCommand e speed)[0]? = some 0x7E ∧
      (NewEffectCommand e speed)[1]? = some 0x00 ∧
      (NewEffectCommand e speed)[8]? = some 0xEF) ∧
    NewRGBCommand 255 0 0 = [0x7E, 0x00, 0x05, 0x03, 0xFF, 0x00, 0x00, 0x00, 0xEF] ∧
    NewPowerCommand true = [0x7E, 0x00, 0x04, 0xF0, 0x00, 0x01, 0xFF, 0x00, 0xEF] ∧
    NewPowerCommand false = [0x7E, 0x00, 0x04, 0x00, 0x00, 0x00, 0xFF, 0x00, 0xEF] ∧
    NewBrightnessCommand 127 = [0x7E, 0x00, 0x01, 0x7F, 0xFF, 0xFF, 0xFF, 0x00, 0xEF] := by
  refine ⟨?_, ?_, ?_, ?_, ?_, ?_, ?_, ?_, ?_, ?_⟩
  · intro isOn; cases isOn <;> exact ⟨rfl, rfl, rfl, rfl⟩
  · intro r g b; exact ⟨rfl, rfl, rfl, rfl⟩
  · intro level; exact ⟨rfl, rfl, rfl, rfl⟩
  · intro warm cold; exact ⟨rfl, rfl, rfl, rfl⟩
  · intro index; exact ⟨rfl, rfl, rfl, rfl⟩
  · intro e speed; exact ⟨rfl, rfl, rfl, rfl⟩
  · rfl
  · rfl
  · rfl
  · rfl

/-- C9: `connect` on an address with a cached handle returns that handle,
leaves the service untouched and does not invoke the link adapter; and
`Disconnect` on an address with no cached connection returns success and
leaves the service (in particular its connection map) unchanged. -/
theorem connection_lifecycle_idempotent (s : DeviceService) (address : Addr)
    (adapterConn : Except BleErr Conn) (adapterDisc : Except BleErr Unit) (now : Nat) :
    (∀ conn : Conn, alookup s.connections address = some conn →
      s.connect address adapterConn now = (.ok conn, s, false)) ∧
    (alookup s.connections address = none →
      s.Disconnect address adapterDisc = (.ok (), s)) := by
  constructor
  · intro conn hconn
    simp [DeviceService.connect, hconn]
  · intro hnone
    simp [DeviceService.Disconnect, hnone]

/-- Witness for C9 at concrete inputs: the cached handle 7 at `"AA:BB"` is
returned without touching the adapter, and disconnecting the unknown address
`"CC:DD"` is a successful no-op. -/
theorem connection_lifecycle_idempotent_witness :
    (exSvc.connect "AA:BB" (.error 3) 5 = (.ok 7, exSvc, false)) ∧
    (exSvc.Disconnect "CC:DD" (.ok ()) = (.ok (), exSvc)) :=
  ⟨(connection_lifecycle_idempotent exSvc "AA:BB" (.error 3) (.ok ()) 5).1 7 (by decide),
   (connection_lifecycle_idempotent exSvc "CC:DD" (.error 3) (.ok ()) 5).2 (by decide)⟩

/-- C3: `writeCommand` performs at most 3 attempts; a first-attempt success
returns immediately after a single connect and write; failing the first two
writes and succeeding on the third returns success after exactly 3 attempts,
each failed write followed by a disconnect and a backoff sleep; and failing
all 3 writes returns the aggregated error wrapping the last failure. -/
theorem writeCommand_retry_policy (oracle : Nat → AttemptOutcome) (e0 e1 e2 : BleErr) :
    (writeCommand oracle).attempts ≤ 3 ∧
    (oracle 0 = .writeOk →
      writeCommand oracle =
        { result := .ok (), events := [.connect, .write], attempts := 1 }) ∧
    (oracle 0 = .writeFail e0 → oracle 1 = .writeFail e1 → oracle 2 = .writeOk →
      writeCommand oracle =
        { result := .ok ()
          events := [.connect, .write, .disconnect, .sleep,
                     .connect, .write, .disconnect, .sleep,
                     .connect, .write]
          attempts := 3 }) ∧
    (oracle 0 = .writeFail e0 → oracle 1 = .writeFail e1 → oracle 2 = .writeFail e2 →
      writeCommand oracle =
        { result := .error (.failedAfter 3 (some e2))
          events := [.connect, .write, .disconnect, .sleep,
                     .connect, .write, .disconnect, .sleep,
                     .connect, .write, .disconnect, .sleep]
          attempts := 3 }) := by
  refine ⟨?_, ?_, ?_, ?_⟩
  · rcases h0 : oracle 0 with e | e | _ <;>
      rcases h1 : oracle 1 with f | f | _ <;>
      rcases h2 : oracle 2 with g | g | _ <;>
      simp [writeCommand, writeCommandLoop, retryAttempts, h0, h1, h2]
  · intro h0
    simp [writeCommand, writeCommandLoop, retryAttempts, h0]
  · intro h0 h1 h2
    simp [writeCommand, writeCommandLoop, retryAttempts, h0, h1, h2]
  · intro h0 h1 h2
    simp [writeCommand, writeCommandLoop, retryAttempts, h0, h1, h2]

/-- Witness for C3 at concrete adapters: the fail-fail-succeed adapter yields
success in exactly 3 attempts, and the always-failing adapter yields the
aggregated error wrapping its last failure. -/
theorem writeCommand_retry_policy_witness :
    (writeCommand oracleThird =
      { result := .ok ()
        events := [.connect, .write, .disconnect, .sleep,
                   .connect, .write, .disconnect, .sleep,
                   .connect, .write]
        attempts := 3 }) ∧
    (writeCommand oracleFail =
      { result := .error (.failedAfter 3 (some 9))
        events := [.connect, .write, .disconnect, .sleep,
                   .connect, .write, .disconnect, .sleep,
                   .connect, .write, .disconnect, .sleep]
        attempts := 3 }) :=
  ⟨(writeCommand_retry_policy oracleThird 0 1 9).2.2.1 (by decide) (by decide) (by decide),
   (writeCommand_retry_policy oracleFail 9 9 9).2.2.2 (by decide) (by decide) (by decide)⟩

/-- C8: one broadcast step delivers the message to exactly the clients whose
bounded send queue is below capacity, keeping them registered with the message
enqueued, and sheds (closes and removes) exactly the clients whose queue is
full — the shed clients never block delivery to the remaining ones. -/
theorem hub_backpressure_shedding (clients : List WsClient) (msg : Msg) :
    broadcastStep msg clients =
      ((clients.filter (fun c => c.sendQueue.length < c.capacity)).map
        (fun c => { c with sendQueue := c.sendQueue ++ [msg] }),
       clients.filter (fun c => ¬ (c.sendQueue.length < c.capacity))) := by
  induction clients with
  | nil => simp [broadcastStep]
  | cons c rest ih =>
      by_cases h : c.sendQueue.length < c.capacity <;>
        simp [broadcastStep, h, ih, List.filter_cons, Nat.not_lt.mp, Nat.not_lt]

/-- C4: when `writeCommand` fails, every semantic setter returns that error
unchanged and leaves the whole stored service state — connection map and
device catalog — exactly as it was; no optimistic mutation happens before the
write is confirmed. -/
theorem setter_atomicity_on_error (s : DeviceService) (oracle : Nat → AttemptOutcome)
    (address : Addr) (isOn : Bool) (r g b warm cold level effect speed : Byte)
    (now : Nat) (e : CmdError)
    (hfail : (writeCommand oracle).result = .error e) :
    s.SetPower oracle address isOn now = (.error e, s, [NewPowerCommand isOn]) ∧
    s.SetColor oracle address r g b now = (.error e, s, [NewRGBCommand r g b]) ∧
    s.SetBrightness oracle address level now =
      (.error e, s, [NewBrightnessCommand level]) ∧
    s.SetWhiteBalance oracle address warm cold now =
      (.error e, s, [NewWhiteBalanceCommand warm cold]) ∧
    s.SetEffect oracle address effect speed now =
      (.error e, s, [NewEffectCommand effect speed]) := by
  refine ⟨?_, ?_, ?_, ?_, ?_⟩ <;>
    simp [DeviceService.SetPower, DeviceService.SetColor, DeviceService.SetBrightness,
      DeviceService.SetWhiteBalance, DeviceService.SetEffect, hfail]

/-- Witness for C4: with the always-failing adapter, `SetColor` propagates the
aggregated retry error and leaves the example service untouched. -/
theorem setter_atomicity_on_error_witness :
    exSvc.SetColor oracleFail "AA:BB" 255 0 0 5 =
      (.error (.failedAfter 3 (some 9)), exSvc, [NewRGBCommand 255 0 0]) :=
  (setter_atomicity_on_error exSvc oracleFail "AA:BB" true 255 0 0 10 20 30 40 50 5
    (.failedAfter 3 (some 9)) (by decide)).2.1

/-- C1 is false as stated: a successful `SetEffect` on the example device
(whose fresh state holds the default white RGB look) leaves both `rgb` and
`effect` non-null, because `SetEffect` does not clear the other look fields. -/
theorem look_exclusivity_counterexample :
    ((alookup ((exSvc.SetEffect oracleOk "AA:BB" 0x25 128 5).2.1.devices) "AA:BB").map
      (fun d => (d.state.rgb.isSome, d.state.whiteBalance.isSome, d.state.effect.isSome)))
      = some (true, false, true) := by decide

/-- C1 as amended: a successful `SetColor` leaves `rgb` as the only non-null
look field and a successful `SetWhiteBalance` leaves `white_balance` as the
only non-null look field, but a successful `SetEffect` sets `effect` (and its
speed) while leaving `rgb` and `white_balance` exactly as they were. -/
theorem look_exclusivity_amended (s : DeviceService) (oracle : Nat → AttemptOutcome)
    (address : Addr) (r g b warm cold effect speed : Byte) (now : Nat) (dev : Device)
    (hok : (writeCommand oracle).result = .ok ())
    (hdev : alookup s.devices address = some dev) :
    ((alookup (s.SetColor oracle address r g b now).2.1.devices address).map
      (fun d => (d.state.rgb, d.state.whiteBalance, d.state.effect)))
      = some (some ⟨r, g, b⟩, none, none) ∧
    ((alookup (s.SetWhiteBalance oracle address warm cold now).2.1.devices address).map
      (fun d => (d.state.rgb, d.state.whiteBalance, d.state.effect)))
      = some (none, some ⟨warm, cold⟩, none) ∧
    ((alookup (s.SetEffect oracle address effect speed now).2.1.devices address).map
      (fun d => (d.state.rgb, d.state.whiteBalance, d.state.effect, d.state.effectSpeed)))
      = some (dev.state.rgb, dev.state.whiteBalance,
              some ((effect : Nat) : Int), some speed) := by
  refine ⟨?_, ?_, ?_⟩ <;>
    simp [DeviceService.SetColor, DeviceService.SetWhiteBalance, DeviceService.SetEffect,
      hok, alookup_aupdate_self, hdev, Device.UpdateState, NewRGB]

/-- Witness for C1 (amended): concrete evaluation on the example service. -/
theorem look_exclusivity_amended_witness :
    ((alookup (exSvc.SetColor oracleOk "AA:BB" 1 2 3 5).2.1.devices "AA:BB").map
      (fun d => (d.state.rgb, d.state.whiteBalance, d.state.effect)))
      = some (some ⟨1, 2, 3⟩, none, none) :=
  (look_exclusivity_amended exSvc oracleOk "AA:BB" 1 2 3 4 5 6 7 5 exDevice
    (by decide) (by decide)).1

/-- An example orchestrator state: one device, a prior accepted command from
user `"u"` at tick 10, no active effect. -/
def exTwitchState : TwitchState :=
  { svc := exSvc
    snapshots := []
    activeEffect := none
    cooldown := { lastGlobalCommand := 10, userLastCommand := [("u", 10)] }
    nextTimer := 0
    stoppedTimers := [] }

/-- An example Twitch configuration: no bypass roles, a 5-tick global cooldown
and a 20-tick per-user cooldown. -/
def exConfig : TwitchConfig :=
  { globalCooldown := 5
    userCooldown := 20
    effectDuration := 60
    vipBypassCooldown := false
    subBypassCooldown := false
    modBypassCooldown := false }

/-- An example viewer command, `!lamp red` from the unprivileged user `"u"`. -/
def exCmd : TwitchCommand :=
  { username := "u"
    displayName := "U"
    command := "red"
    isVIP := false
    isSub := false
    isMod := false
    timestamp := 0 }

/-- C6: for a requester with no bypass privilege the global cooldown is
checked first and rejects with remaining time interval-minus-elapsed; the
per-requester cooldown is checked second, the same way, against that
requester's last accepted command; a rejection leaves the whole state
untouched and hands no frame to the device; both cooldown timestamps are set
to the current instant exactly when the command is accepted and executes
successfully. -/
theorem cooldown_arbitration (st : TwitchState) (selected : Option Addr)
    (cmd : TwitchCommand) (config : TwitchConfig) (oracle : Nat → AttemptOutcome)
    (now : Nat)
    (hbypass : ((cmd.isVIP && config.vipBypassCooldown) ||
        (cmd.isSub && config.subBypassCooldown) ||
        (cmd.isMod && config.modBypassCooldown)) = false) :
    (config.globalCooldown ≠ 0 →
      now - st.cooldown.lastGlobalCommand < config.globalCooldown →
      st.handleCommand selected cmd config oracle now =
        (.rejectedGlobal
           (config.globalCooldown - (now - st.cooldown.lastGlobalCommand)), st, [])) ∧
    (∀ lastCmd : Nat,
      (st.cooldown.CheckGlobalCooldown config.globalCooldown now).1 = true →
      config.userCooldown ≠ 0 →
      alookup st.cooldown.userLastCommand cmd.username = some lastCmd →
      now - lastCmd < config.userCooldown →
      st.handleCommand selected cmd config oracle now =
        (.rejectedPersonal (config.userCooldown - (now - lastCmd)), st, [])) ∧
    ((st.cooldown.CheckGlobalCooldown config.globalCooldown now).1 = true →
      (st.cooldown.CheckUserCooldown cmd.username config.userCooldown now).1 = true →
      (st.executeCommand selected cmd oracle now).1 = .ok () →
      st.handleCommand selected cmd config oracle now =
        (.success,
         { (st.executeCommand selected cmd oracle now).2.1 with cooldown :=
            { lastGlobalCommand := now
              userLastCommand :=
                ainsert (st.executeCommand selected cmd oracle now).2.1.cooldown.userLastCommand
                  cmd.username now } },
         (st.executeCommand selected cmd oracle now).2.2)) := by
  refine ⟨?_, ?_, ?_⟩
  · intro hg0 hlt
    simp [TwitchState.handleCommand, hbypass, CooldownState.CheckGlobalCooldown, hg0, hlt]
  · intro lastCmd hgok hu0 hlast hlt
    simp [TwitchState.handleCommand, hbypass, hgok,
      CooldownState.CheckUserCooldown, hu0, hlast, hlt]
  · intro hgok huok hexec
    rcases hE : st.executeCommand selected cmd oracle now with ⟨res, st2, frames⟩
    rw [hE] at hexec
    simp at hexec
    subst hexec
    simp [TwitchState.handleCommand, hbypass, hgok, huok, hE,
      CooldownState.RecordCommand]

/-- Witness for C6 at concrete instants: at tick 12 the global cooldown
rejects with 3 ticks remaining; at tick 16 the per-user cooldown rejects with
14 ticks remaining; at tick 100 the command is accepted, executes, and both
cooldown stamps become 100. -/
theorem cooldown_arbitration_witness :
    (exTwitchState.handleCommand (some "AA:BB") exCmd exConfig oracleOk 12 =
      (.rejectedGlobal 3, exTwitchState, [])) ∧
    (exTwitchState.handleCommand (some "AA:BB") exCmd exConfig oracleOk 16 =
      (.rejectedPersonal 14, exTwitchState, [])) ∧
    (exTwitchState.handleCommand (some "AA:BB") exCmd exConfig oracleOk 100 =
      (.success,
       { (exTwitchState.executeCommand (some "AA:BB") exCmd oracleOk 100).2.1 with
          cooldown :=
           { lastGlobalCommand := 100
             userLastCommand :=
               ainsert (exTwitchState.executeCommand
                   (some "AA:BB") exCmd oracleOk 100).2.1.cooldown.userLastCommand
                 "u" 100 } },
       (exTwitchState.executeCommand (some "AA:BB") exCmd oracleOk 100).2.2)) :=
  ⟨(cooldown_arbitration exTwitchState (some "AA:BB") exCmd exConfig oracleOk 12
      (by decide)).1 (by decide) (by decide),
   (cooldown_arbitration exTwitchState (some "AA:BB") exCmd exConfig oracleOk 16
      (by decide)).2.1 10 (by decide) (by decide) (by decide) (by decide),
   (cooldown_arbitration exTwitchState (some "AA:BB") exCmd exConfig oracleOk 100
      (by decide)).2.2 (by decide) (by decide) (by decide)⟩

/-- A setter never adds or removes catalog entries: the selected device is in
the catalog after the dispatch exactly when it was before. -/
theorem setter_preserves_device_presence (svc : DeviceService)
    (oracle : Nat → AttemptOutcome) (a : Addr) (p : ParsedPayload) (now : Nat) :
    (alookup (dispatchSetter svc oracle a p now).2.1.devices a).isSome
      = (alookup svc.devices a).isSome := by
  rcases hw : (writeCommand oracle).result with e | u <;>
    cases p <;>
      simp [dispatchSetter, DeviceService.SetPower, DeviceService.SetColor,
        DeviceService.SetBrightness, DeviceService.SetWhiteBalance,
        DeviceService.SetEffect, hw, alookup_aupdate_self]

/-- C7: a malformed envelope, an unknown action or a malformed payload each
produce exactly one structured error reply to the originating client, no
broadcast and no setter invocation; a failed setter produces one error reply
and no broadcast; and (when the selected address is in the catalog, as every
reachable selection is) a state broadcast goes out if and only if the setter
succeeded. -/
theorem hub_command_handling (svc : DeviceService) (selected : Option Addr)
    (oracle : Nat → AttemptOutcome) (now : Nat) :
    (Hub.handleCommand svc selected .malformed oracle now =
      { errorReplies := [.invalidFormat], broadcastSent := false
        setterCalled := false, setterSucceeded := false, svc := svc }) ∧
    (∀ a : Addr, selected = some a →
      Hub.handleCommand svc selected .unknownAction oracle now =
        { errorReplies := [.unknownAction], broadcastSent := false
          setterCalled := false, setterSucceeded := false, svc := svc }) ∧
    (∀ (a : Addr) (act : HubAction), selected = some a →
      Hub.handleCommand svc selected (.badPayload act) oracle now =
        { errorReplies := [.invalidPayload], broadcastSent := false
          setterCalled := false, setterSucceeded := false, svc := svc }) ∧
    (∀ (a : Addr) (p : ParsedPayload) (e : CmdError), selected = some a →
      (dispatchSetter svc oracle a p now).1 = .error e →
      Hub.handleCommand svc selected (.valid p) oracle now =
        { errorReplies := [.commandFailed], broadcastSent := false
          setterCalled := true, setterSucceeded := false
          svc := (dispatchSetter svc oracle a p now).2.1 }) ∧
    (∀ (a : Addr) (p : ParsedPayload), selected = some a →
      (alookup svc.devices a).isSome = true →
      ((Hub.handleCommand svc selected (.valid p) oracle now).broadcastSent = true ↔
        (dispatchSetter svc oracle a p now).1 = .ok ())) := by
  refine ⟨rfl, ?_, ?_, ?_, ?_⟩
  · intro a hsel; subst hsel; rfl
  · intro a act hsel; subst hsel; rfl
  · intro a p e hsel hfail
    subst hsel
    rcases hd : dispatchSetter svc oracle a p now with ⟨res, svc2, frames⟩
    rw [hd] at hfail
    simp at hfail
    subst hfail
    simp [Hub.handleCommand, hd]
  · intro a p hsel hdev
    subst hsel
    have hpres := setter_preserves_device_presence svc oracle a p now
    rcases hd : dispatchSetter svc oracle a p now with ⟨res, svc2, frames⟩
    rw [hd] at hpres
    cases res with
    | error e => simp [Hub.handleCommand, hd]
    | ok u =>
        cases u
        simp [Hub.handleCommand, hd, BroadcastDeviceState]
        rw [hpres, hdev]

/-- Witness for C7 at concrete inputs: with a selected catalog device, a
successful color command broadcasts, an unknown action replies only to the
originator, and a failing setter replies `COMMAND_FAILED` without broadcast. -/
theorem hub_command_handling_witness :
    ((Hub.handleCommand exSvc (some "AA:BB") (.valid (.color 1 2 3)) oracleOk
        5).broadcastSent = true ↔
      (dispatchSetter exSvc oracleOk "AA:BB" (.color 1 2 3) 5).1 = .ok ()) ∧
    (Hub.handleCommand exSvc (some "AA:BB") .unknownAction oracleOk 5 =
      { errorReplies := [.unknownAction], broadcastSent := false
        setterCalled := false, setterSucceeded := false, svc := exSvc }) ∧
    (Hub.handleCommand exSvc (some "AA:BB") (.valid (.color 1 2 3)) oracleFail 5 =
      { errorReplies := [.commandFailed], broadcastSent := false
        setterCalled := true, setterSucceeded := false
        svc := (dispatchSetter exSvc oracleFail "AA:BB" (.color 1 2 3) 5).2.1 }) :=
  ⟨(hub_command_handling exSvc (some "AA:BB") oracleOk 5).2.2.2.2 "AA:BB"
      (.color 1 2 3) rfl (by decide),
   (hub_command_handling exSvc (some "AA:BB") oracleOk 5).2.1 "AA:BB" rfl,
   (hub_command_handling exSvc (some "AA:BB") oracleFail 5).2.2.2.1 "AA:BB"
      (.color 1 2 3) (.failedAfter 3 (some 9)) rfl (by decide)⟩

/-- Executing an accepted color command from idle: the current device state is
snapshotted before any mutation, the look becomes the command's color, and a
fresh revert timer and `ActiveEffect` marker are installed. -/
theorem executeCommand_from_idle (st : TwitchState) (addr : Addr) (dev : Device)
    (cmd : TwitchCommand) (rgbv : RGB) (oracle : Nat → AttemptOutcome) (now : Nat)
    (hidle : st.activeEffect = none)
    (hdev : alookup st.svc.devices addr = some dev)
    (hcolor : ColorMap cmd.command = some rgbv)
    (hok : (writeCommand oracle).result = .ok ()) :
    st.executeCommand (some addr) cmd oracle now =
      (.ok (),
       { svc := { st.svc with devices := aupdate st.svc.devices addr (fun d =>
            d.UpdateState { d.state with
              rgb := some rgbv
              whiteBalance := none
              effect := none
              lastUpdated := now } now) }
         snapshots := ainsert st.snapshots addr
           (NewStateSnapshot addr dev.state "twitch_viewer_command" now)
         activeEffect := some { username := cmd.username, command := cmd.command
                                startedAt := now, timer := st.nextTimer }
         cooldown := st.cooldown
         nextTimer := st.nextTimer + 1
         stoppedTimers := st.stoppedTimers },
       [NewRGBCommand rgbv.r rgbv.g rgbv.b]) := by
  simp [TwitchState.executeCommand, hidle, hdev, hcolor, IsColor, hok,
    DeviceService.SetColor, NewRGB]

/-- Executing an accepted color command while an effect is active: the pending
revert timer is stopped, the snapshot map is not touched, the look becomes the
command's color, and the marker is replaced with a fresh timer. -/
theorem executeCommand_while_active (st : TwitchState) (addr : Addr)
    (ae : ActiveEffect) (cmd : TwitchCommand) (rgbv : RGB)
    (oracle : Nat → AttemptOutcome) (now : Nat)
    (hactive : st.activeEffect = some ae)
    (hcolor : ColorMap cmd.command = some rgbv)
    (hok : (writeCommand oracle).result = .ok ()) :
    st.executeCommand (some addr) cmd oracle now =
      (.ok (),
       { svc := { st.svc with devices := aupdate st.svc.devices addr (fun d =>
            d.UpdateState { d.state with
              rgb := some rgbv
              whiteBalance := none
              effect := none
              lastUpdated := now } now) }
         snapshots := st.snapshots
         activeEffect := some { username := cmd.username, command := cmd.command
                                startedAt := now, timer := st.nextTimer }
         cooldown := st.cooldown
         nextTimer := st.nextTimer + 1
         stoppedTimers := ae.timer :: st.stoppedTimers },
       [NewRGBCommand rgbv.r rgbv.g rgbv.b]) := by
  simp [TwitchState.executeCommand, hactive, hcolor, IsColor, hok,
    DeviceService.SetColor, NewRGB]

/-- Firing the revert timer over a snapshot whose look is an RGB color:
`SetColor` re-sends exactly that color and the marker is cleared. -/
theorem restore_rgb_snapshot (st : TwitchState) (addr : Addr) (snap : StateSnapshot)
    (rgbv : RGB) (oracle : Nat → AttemptOutcome) (now : Nat)
    (hsnap : alookup st.snapshots addr = some snap)
    (hrgb : snap.state.rgb = some rgbv)
    (hok : (writeCommand oracle).result = .ok ()) :
    st.restoreStreamerState addr oracle now =
      ({ st with
          svc := { st.svc with devices := aupdate st.svc.devices addr (fun d =>
            d.UpdateState { d.state with
              rgb := some rgbv
              whiteBalance := none
              effect := none
              lastUpdated := now } now) }
          activeEffect := none },
       [NewRGBCommand rgbv.r rgbv.g rgbv.b]) := by
  simp [TwitchState.restoreStreamerState, hsnap, hrgb, hok,
    DeviceService.SetColor, NewRGB]

/-- Firing the revert timer over a snapshot whose look is a white balance:
`SetWhiteBalance` re-sends exactly that balance and the marker is cleared. -/
theorem restore_wb_snapshot (st : TwitchState) (addr : Addr) (snap : StateSnapshot)
    (wb : WhiteBalance) (oracle : Nat → AttemptOutcome) (now : Nat)
    (hsnap : alookup st.snapshots addr = some snap)
    (hrgb : snap.state.rgb = none)
    (hwb : snap.state.whiteBalance = some wb)
    (hok : (writeCommand oracle).result = .ok ()) :
    st.restoreStreamerState addr oracle now =
      ({ st with
          svc := { st.svc with devices := aupdate st.svc.devices addr (fun d =>
            d.UpdateState { d.state with
              whiteBalance := some wb
              rgb := none
              effect := none
              lastUpdated := now } now) }
          activeEffect := none },
       [NewWhiteBalanceCommand wb.warm wb.cold]) := by
  simp [TwitchState.restoreStreamerState, hsnap, hrgb, hwb, hok,
    DeviceService.SetWhiteBalance]

/-- A device whose stored look is exclusively a built-in effect. -/
def exEffectDevice : Device :=
  { exDevice with state :=
      { powerOn := true
        brightness := 200
        rgb := none
        whiteBalance := none
        effect := some 5
        effectSpeed := some 100
        lastUpdated := 0 } }

/-- An idle orchestrator state over a device in effect look. -/
def exEffectSt : TwitchState :=
  { svc := { connections := [], devices := [("AA:BB", exEffectDevice)] }
    snapshots := []
    activeEffect := none
    cooldown := NewCooldownState
    nextTimer := 0
    stoppedTimers := [] }

/-- The viewer command `!lamp blue`. -/
def exCmdBlue : TwitchCommand := { exCmd with command := "blue" }

/-- C2 is false as stated for an effect-look start state: after the chain
red-override, blue-override, revert, the stored look is not the original
(rgb null, effect 5) — the intermediate override's blue rgb survives the
restore because `SetEffect` does not clear `rgb`. -/
theorem snapshot_restore_chain_counterexample :
    ((alookup ((((exEffectSt.executeCommand (some "AA:BB") exCmd oracleOk
          1).2.1.executeCommand (some "AA:BB") exCmdBlue oracleOk
          2).2.1.restoreStreamerState "AA:BB" oracleOk 3).1.svc.devices) "AA:BB").map
      (fun d => (d.state.rgb, d.state.whiteBalance, d.state.effect)))
      = some (some ⟨0, 0, 255⟩, none, some 5) ∧
    exEffectDevice.state.rgb = none := by decide

/-- C2 as amended: starting from idle with a device look that is exclusively
rgb or exclusively white balance, the first accepted color command snapshots
the prior state before mutating and schedules a revert timer; a second
accepted color command while the effect is active cancels that timer, applies
the new look, replaces the marker and does not retake the snapshot; and when
the final revert timer fires the device look is restored to the pre-chain
look, not to any intermediate override, and the marker is cleared.  (For a
pure effect look the restored state additionally retains the last override's
rgb, because `SetEffect` does not clear it — see the counterexample.) -/
theorem snapshot_restore_chain (st0 : TwitchState) (addr : Addr) (devA : Device)
    (cmdB cmdC : TwitchCommand) (rgbB rgbC : RGB)
    (o1 o2 o3 : Nat → AttemptOutcome) (t1 t2 t3 : Nat)
    (hidle : st0.activeEffect = none)
    (hdev : alookup st0.svc.devices addr = some devA)
    (hlook : (devA.state.whiteBalance = none ∧ devA.state.effect = none ∧
                devA.state.rgb.isSome = true) ∨
             (devA.state.rgb = none ∧ devA.state.effect = none ∧
                devA.state.whiteBalance.isSome = true))
    (hB : ColorMap cmdB.command = some rgbB)
    (hC : ColorMap cmdC.command = some rgbC)
    (ho1 : (writeCommand o1).result = .ok ())
    (ho2 : (writeCommand o2).result = .ok ())
    (ho3 : (writeCommand o3).result = .ok ()) :
    (st0.executeCommand (some addr) cmdB o1 t1).1 = .ok () ∧
    alookup (st0.executeCommand (some addr) cmdB o1 t1).2.1.snapshots addr =
      some (NewStateSnapshot addr devA.state "twitch_viewer_command" t1) ∧
    (st0.executeCommand (some addr) cmdB o1 t1).2.1.activeEffect =
      some { username := cmdB.username, command := cmdB.command
             startedAt := t1, timer := st0.nextTimer } ∧
    ((st0.executeCommand (some addr) cmdB o1 t1).2.1.executeCommand (some addr)
        cmdC o2 t2).1 = .ok () ∧
    ((st0.executeCommand (some addr) cmdB o1 t1).2.1.executeCommand (some addr)
        cmdC o2 t2).2.1.stoppedTimers = st0.nextTimer :: st0.stoppedTimers ∧
    ((st0.executeCommand (some addr) cmdB o1 t1).2.1.executeCommand (some addr)
        cmdC o2 t2).2.1.snapshots =
      (st0.executeCommand (some addr) cmdB o1 t1).2.1.snapshots ∧
    ((st0.executeCommand (some addr) cmdB o1 t1).2.1.executeCommand (some addr)
        cmdC o2 t2).2.1.activeEffect =
      some { username := cmdC.username, command := cmdC.command
             startedAt := t2, timer := st0.nextTimer + 1 } ∧
    ((alookup (((st0.executeCommand (some addr) cmdB o1 t1).2.1.executeCommand
          (some addr) cmdC o2 t2).2.1.restoreStreamerState addr o3
          t3).1.svc.devices addr).map
        (fun d => (d.state.rgb, d.state.whiteBalance, d.state.effect)))
      = some (devA.state.rgb, devA.state.whiteBalance, devA.state.effect) ∧
    (((st0.executeCommand (some addr) cmdB o1 t1).2.1.executeCommand (some addr)
        cmdC o2 t2).2.1.restoreStreamerState addr o3 t3).1.activeEffect = none := by
  have h1 := executeCommand_from_idle st0 addr devA cmdB rgbB o1 t1 hidle hdev hB ho1
  rw [h1]
  have h2 := executeCommand_while_active
    (((st0.executeCommand (some addr) cmdB o1 t1).2.1)) addr
    { username := cmdB.username, command := cmdB.command
      startedAt := t1, timer := st0.nextTimer } cmdC rgbC o2 t2 (by rw [h1]) hC ho2
  rw [h1] at h2
  rw [h2]
  refine ⟨rfl, alookup_ainsert_self _ _ _, rfl, rfl, rfl, rfl, rfl, ?_, ?_⟩ <;>
  · rcases hlook with ⟨hwbA, heA, hrgbA⟩ | ⟨hrgbA, heA, hwbA⟩
    · obtain ⟨rgbA, hrgbA⟩ := Option.isSome_iff_exists.mp hrgbA
      simp [TwitchState.restoreStreamerState, alookup_ainsert_self, NewStateSnapshot,
        hrgbA, hwbA, heA, ho3, DeviceService.SetColor, alookup_aupdate_self, hdev,
        Device.UpdateState, NewRGB]
    · obtain ⟨wbA, hwbA⟩ := Option.isSome_iff_exists.mp hwbA
      simp [TwitchState.restoreStreamerState, alookup_ainsert_self, NewStateSnapshot,
        hrgbA, hwbA, heA, ho3, DeviceService.SetWhiteBalance, alookup_aupdate_self,
        hdev, Device.UpdateState]

/-- Witness for C2 (amended): the red-then-blue override chain on the example
device (white rgb look) ends with the white look restored. -/
theorem snapshot_restore_chain_witness :
    ((alookup (((exTwitchState.executeCommand (some "AA:BB") exCmd oracleOk
          1).2.1.executeCommand (some "AA:BB") exCmdBlue oracleOk
          2).2.1.restoreStreamerState "AA:BB" oracleOk 3).1.svc.devices "AA:BB").map
        (fun d => (d.state.rgb, d.state.whiteBalance, d.state.effect)))
      = some (some ⟨255, 255, 255⟩, none, none) := by
  have h := snapshot_restore_chain exTwitchState "AA:BB" exDevice exCmd exCmdBlue
    ⟨255, 0, 0⟩ ⟨0, 0, 255⟩ oracleOk oracleOk oracleOk 1 2 3
    rfl (by decide) (Or.inl (by decide)) (by decide) (by decide)
    (by decide) (by decide) (by decide)
  have h8 := h.2.2.2.2.2.2.2.1
  simpa [exDevice, NewDevice, NewDeviceState] using h8

/-- C10: when the revert timer fires and a snapshot exists, the restore
re-sends only the snapshot's look with fixed precedence — rgb, else white
balance, else effect (with the stored speed, or 128 when absent) — never the
snapshot's power or brightness, and the active-effect marker is cleared even
when the restore write fails (the conclusions hold for every adapter oracle);
when no snapshot exists, nothing is written and the marker is untouched. -/
theorem restore_semantics (st : TwitchState) (addr : Addr)
    (oracle : Nat → AttemptOutcome) (now : Nat) :
    (alookup st.snapshots addr = none →
      st.restoreStreamerState addr oracle now = (st, [])) ∧
    (∀ (snap : StateSnapshot) (rgbv : RGB),
      alookup st.snapshots addr = some snap → snap.state.rgb = some rgbv →
      (st.restoreStreamerState addr oracle now).2 =
        [NewRGBCommand rgbv.r rgbv.g rgbv.b] ∧
      (st.restoreStreamerState addr oracle now).1.activeEffect = none) ∧
    (∀ (snap : StateSnapshot) (wb : WhiteBalance),
      alookup st.snapshots addr = some snap → snap.state.rgb = none →
      snap.state.whiteBalance = some wb →
      (st.restoreStreamerState addr oracle now).2 =
        [NewWhiteBalanceCommand wb.warm wb.cold] ∧
      (st.restoreStreamerState addr oracle now).1.activeEffect = none) ∧
    (∀ (snap : StateSnapshot) (e : Int) (sp : Byte),
      alookup st.snapshots addr = some snap → snap.state.rgb = none →
      snap.state.whiteBalance = none → snap.state.effect = some e →
      snap.state.effectSpeed = some sp →
      (st.restoreStreamerState addr oracle now).2 =
        [NewEffectCommand (uint8OfInt e) sp] ∧
      (st.restoreStreamerState addr oracle now).1.activeEffect = none) ∧
    (∀ (snap : StateSnapshot) (e : Int),
      alookup st.snapshots addr = some snap → snap.state.rgb = none →
      snap.state.whiteBalance = none → snap.state.effect = some e →
      snap.state.effectSpeed = none →
      (st.restoreStreamerState addr oracle now).2 =
        [NewEffectCommand (uint8OfInt e) 128] ∧
      (st.restoreStreamerState addr oracle now).1.activeEffect = none) ∧
    (∀ f ∈ (st.restoreStreamerState addr oracle now).2,
      f[2]? ≠ some CmdPower ∧ f[2]? ≠ some CmdBrightness) := by
  refine ⟨?_, ?_, ?_, ?_, ?_, ?_⟩
  · intro h
    simp [TwitchState.restoreStreamerState, h]
  · intro snap rgbv hs hr
    rcases hw : (writeCommand oracle).result with e | u <;>
      simp [TwitchState.restoreStreamerState, hs, hr, hw, DeviceService.SetColor]
  · intro snap wb hs hr hwb
    rcases hw : (writeCommand oracle).result with e | u <;>
      simp [TwitchState.restoreStreamerState, hs, hr, hwb, hw,
        DeviceService.SetWhiteBalance]
  · intro snap e sp hs hr hwb he hsp
    rcases hw : (writeCommand oracle).result with f | u <;>
      simp [TwitchState.restoreStreamerState, hs, hr, hwb, he, hsp, hw,
        DeviceService.SetEffect]
  · intro snap e hs hr hwb he hsp
    rcases hw : (writeCommand oracle).result with f | u <;>
      simp [TwitchState.restoreStreamerState, hs, hr, hwb, he, hsp, hw,
        DeviceService.SetEffect]
  · rcases hs : alookup st.snapshots addr with _ | snap
    · simp [TwitchState.restoreStreamerState, hs]
    · rcases hw : (writeCommand oracle).result with f | u <;>
        rcases hr : snap.state.rgb with _ | rgbv <;>
        rcases hwb2 : snap.state.whiteBalance with _ | wb <;>
        rcases he2 : snap.state.effect with _ | ev <;>
        rcases hsp2 : snap.state.effectSpeed with _ | sp <;>
          simp [TwitchState.restoreStreamerState, hs, hw, hr, hwb2, he2, hsp2,
            DeviceService.SetColor, DeviceService.SetWhiteBalance,
            DeviceService.SetEffect, NewRGBCommand, NewWhiteBalanceCommand,
            NewEffectCommand, CmdPower, CmdBrightness, CmdColor, CmdEffect]

/-- An orchestrator state holding an effect-look snapshot for `"AA:BB"` and a
live active-effect marker. -/
def exRestoreSt : TwitchState :=
  { exEffectSt with
      snapshots :=
        [("AA:BB", NewStateSnapshot "AA:BB" exEffectDevice.state "twitch_viewer_command" 0)]
      activeEffect := some { username := "u", command := "red", startedAt := 0, timer := 0 } }

/-- Witness for C10: restoring an address with no snapshot touches nothing
(the marker survives), and restoring the effect-look snapshot re-sends the
effect frame at the stored speed and clears the marker even though every
write attempt fails. -/
theorem restore_semantics_witness :
    (exRestoreSt.restoreStreamerState "CC:DD" oracleOk 3 = (exRestoreSt, [])) ∧
    ((exRestoreSt.restoreStreamerState "AA:BB" oracleFail 3).2 =
        [NewEffectCommand (uint8OfInt 5) 100] ∧
      (exRestoreSt.restoreStreamerState "AA:BB" oracleFail 3).1.activeEffect = none) :=
  ⟨(restore_semantics exRestoreSt "CC:DD" oracleOk 3).1 (by decide),
   (restore_semantics exRestoreSt "AA:BB" oracleFail 3).2.2.2.1
      (NewStateSnapshot "AA:BB" exEffectDevice.state "twitch_viewer_command" 0) 5 100
      (by decide) (by decide) (by decide) (by decide) (by decide)⟩

end LampControl
